import Mathlib

/-!
Verification of the Resilient Feed Synchronization Engine
(frontend of the firstMove repository).

The definitions below are a shallow embedding of the TypeScript source:

* `src/frontend/src/app/page.tsx` — the `Home` component's
  `loadInitialData` / `loadMoreData` callbacks (pagination-and-dedup
  engine plus the change detector / notification trigger);
* `src/frontend/src/services/newsService.ts` — `adaptApiDataToNewsItem`,
  `inferCategoryFromLLMAnalysis`, `generatePaginatedMockData`,
  `fetchNewsData`;
* `src/frontend/src/lib/apiClient.ts` — `ApiClient.request`.

Asynchronous network calls are modelled by passing each call's outcome
as an explicit argument; React `useState` setters become functional
updates of an explicit `HomeState` record.  Impure JavaScript
primitives (`Date.now()`, `Date.prototype.toISOString`) are passed in
as a `JsEnv` parameter.
-/

/-- `String.prototype.includes` on JavaScript strings, modelled as
substring containment over the character list. -/
def hasSubstrAux (needle : List Char) : List Char → Bool
  | [] => needle.isEmpty
  | c :: rest => needle.isPrefixOf (c :: rest) || hasSubstrAux needle rest

/-- `s.includes pat` for JavaScript strings. -/
def strIncludes (s pat : String) : Bool :=
  hasSubstrAux pat.data s.data

/-- The three normalized sentiment values of `NewsItem.sentiment`. -/
inductive Sentiment where
  | positive
  | neutral
  | negative
deriving DecidableEq, Repr

/-- `{name, symbol, market}` entries of `NewsItem.stocks`
(`newsService.ts`). -/
structure StockRef where
  name : String
  symbol : String
  market : String
deriving DecidableEq, Repr

/-- `NewsItem.coreInsight` (`newsService.ts`). -/
structure CoreInsight where
  summary : String
  keyPoint : String
deriving DecidableEq, Repr

/-- The normalized `NewsItem` record of `newsService.ts`. -/
structure NewsItem where
  id : String
  title : String
  content : String
  publishTime : String
  sentiment : Sentiment
  tags : List String
  stocks : List StockRef
  coreInsight : Option CoreInsight
  category : String
deriving DecidableEq, Repr

/-- The `ApiError` class of `apiClient.ts`: message, HTTP status
(0 when no response was received), and optional details (the response
body text, or the wrapped error's message). -/
structure ApiError where
  message : String
  status : Nat
  details : Option String
deriving DecidableEq, Repr

/-- The classified decision handed to `notifyNewFlash(count,
hasImportant, sentiment)` in `page.tsx`. -/
structure NotificationDecision where
  count : Nat
  hasImportant : Bool
  dominantSentiment : Sentiment
deriving DecidableEq, Repr

/-- `ITEMS_PER_PAGE` in `page.tsx`. -/
def ITEMS_PER_PAGE : Nat := 20

/-- `item.category === '重大先机' || (item.tags && item.tags.some(tag =>
tag.includes('焦点')))` — the importance test used both by the change
detector and the importance filter in `page.tsx`. -/
def isImportantItem (item : NewsItem) : Bool :=
  item.category == "重大先机" || item.tags.any (fun tag => strIncludes tag "焦点")

/-- The state of the `Home` component in `page.tsx` that the feed
engine reads or writes: the `useState` cells `allNews`, `page`,
`hasMore`, `error`, `isLoading`, `isLoadingMore`, and the
`prevNewsIdsRef` ref cell. -/
structure HomeState where
  allNews : List NewsItem
  page : Nat
  hasMore : Bool
  error : Option String
  isLoading : Bool
  isLoadingMore : Bool
  prevNewsIds : List String
deriving DecidableEq, Repr

/-- The component's initial state (`useState` initial values;
`prevNewsIdsRef` starts as the empty set). -/
def initialHomeState : HomeState where
  allNews := []
  page := 1
  hasMore := true
  error := none
  isLoading := true
  isLoadingMore := false
  prevNewsIds := []

/-- The change-detector step inside `loadInitialData` (`page.tsx`
lines 50–72): compare the fetched records against the previous id set;
produce a notification decision only when the previous set is nonempty
and some fetched record has a fresh id.  `previousIds` models the
`Set<string>` in `prevNewsIdsRef` (membership is all that is used). -/
def onRefreshComplete (previousIds : List String) (newRecords : List NewsItem) :
    Option NotificationDecision :=
  if 0 < previousIds.length then
    let newItems := newRecords.filter (fun item => !(previousIds.contains item.id))
    match newItems with
    | [] => none
    | first :: rest =>
        some { count := (first :: rest).length
               hasImportant := (first :: rest).any isImportantItem
               dominantSentiment := first.sentiment }
  else none

/-- `loadInitialData` of `page.tsx` with the outcome of
`fetchLatestNews` passed in explicitly.  Returns the updated component
state together with the notification decision (the argument tuple of
`notifyNewFlash`, when it is invoked).  `setPage(1)` and
`setError(null)` run before the fetch, so `page = 1` in both branches;
the `catch` branch sets the error banner and `hasMore = false`. -/
def loadInitialData (st : HomeState) (fetchResult : Except ApiError (List NewsItem)) :
    HomeState × Option NotificationDecision :=
  match fetchResult with
  | Except.ok newsData =>
      let currentIds := newsData.map (fun item => item.id)
      let decision := onRefreshComplete st.prevNewsIds newsData
      ({ st with
          isLoading := false
          error := none
          page := 1
          prevNewsIds := currentIds
          allNews := newsData
          hasMore := decide (ITEMS_PER_PAGE ≤ newsData.length) },
       decision)
  | Except.error _ =>
      ({ st with
          isLoading := false
          error := some "获取数据失败，显示模拟数据"
          page := 1
          hasMore := false },
       none)

/-- The ids already present, `new Set(allNews.map(item => item.id))`. -/
def existingIdsOf (st : HomeState) : List String :=
  st.allNews.map (fun item => item.id)

/-- `loadMoreData` of `page.tsx` with the outcome of `fetchMoreNews`
passed in explicitly.  Guard: returns the state unchanged when a
load-more is in flight or `hasMore` is false.  On success it drops the
fetched items whose id is already present; if none remain it only sets
`hasMore = false`, otherwise it appends them, increments `page` and
sets `hasMore = (uniqueNewItems.length >= ITEMS_PER_PAGE)`.  The
`catch` branch sets `hasMore = false` and nothing else (the error is
swallowed). -/
def loadMoreData (st : HomeState) (fetchResult : Except ApiError (List NewsItem)) :
    HomeState :=
  if st.isLoadingMore || !st.hasMore then st
  else
    match fetchResult with
    | Except.ok newItems =>
        if newItems.length = 0 then { st with hasMore := false }
        else
          let existingIds := existingIdsOf st
          let uniqueNewItems := newItems.filter (fun item => !(existingIds.contains item.id))
          if uniqueNewItems.length = 0 then { st with hasMore := false }
          else
            { st with
                allNews := st.allNews ++ uniqueNewItems
                page := st.page + 1
                hasMore := decide (ITEMS_PER_PAGE ≤ uniqueNewItems.length) }
    | Except.error _ => { st with hasMore := false }

/-- One user-visible engine event: a `loadFirstPage` (i.e.
`loadInitialData`) or a `loadMore` (i.e. `loadMoreData`) call, tagged
with the outcome its fetch produced. -/
inductive FeedEvent where
  | firstPage (result : Except ApiError (List NewsItem))
  | more (result : Except ApiError (List NewsItem))

/-- Apply one event to the component state. -/
def feedStep (st : HomeState) : FeedEvent → HomeState
  | FeedEvent.firstPage r => (loadInitialData st r).1
  | FeedEvent.more r => loadMoreData st r

/-- Run a sequence of `loadFirstPage` / `loadMore` calls. -/
def runEvents (st : HomeState) (evs : List FeedEvent) : HomeState :=
  evs.foldl feedStep st

/-- An event whose successfully fetched page has no internal duplicate
ids (failed fetches impose nothing). -/
def eventPageNodup : FeedEvent → Prop
  | FeedEvent.firstPage (Except.ok l) => (l.map (fun item => item.id)).Nodup
  | FeedEvent.firstPage (Except.error _) => True
  | FeedEvent.more (Except.ok l) => (l.map (fun item => item.id)).Nodup
  | FeedEvent.more (Except.error _) => True

/-! ## newsService.ts : normalization, mock fallback, page fetcher -/

/-- The impure JavaScript primitives the service code touches:
`Date.now()` and `new Date(ms).toISOString()`, passed in explicitly. -/
structure JsEnv where
  nowMs : Nat
  isoOfMs : Nat → String

/-- JavaScript truthiness on an optional string: `null`, `undefined`
and `""` are falsy. -/
def jsStr (o : Option String) : Option String :=
  match o with
  | some s => if s = "" then none else some s
  | none => none

/-- `x || fallback` on strings with JavaScript truthiness. -/
def jsStrOr (o : Option String) (fallback : String) : String :=
  (jsStr o).getD fallback

/-- `s.substring(0, n)` (JavaScript). -/
def strTake (s : String) (n : Nat) : String :=
  ⟨s.data.take n⟩

/-- `s.toLowerCase()` (JavaScript); CJK characters are unaffected. -/
def strToLower (s : String) : String :=
  s.map Char.toLower

/-- `associated_symbols` entries of the raw upstream item. -/
structure AssocSymbol where
  name : Option String
  symbol : Option String
  market : Option String
deriving DecidableEq, Repr

/-- `stock_specific_analysis` of `llm_analysis`. -/
structure StockSpecificAnalysis where
  potential_impact : Option String
deriving DecidableEq, Repr

/-- `macro_analysis` of `llm_analysis`. -/
structure MacroAnalysis where
  potential_market_impact : Option String
deriving DecidableEq, Repr

/-- The `LLMAnalysis` interface of `newsService.ts`. -/
structure LLMAnalysis where
  suggested_title : Option String
  sentiment : Option String
  summary : Option String
  category : Option String
  stock_specific_analysis : Option StockSpecificAnalysis
  macro_analysis : Option MacroAnalysis
deriving DecidableEq, Repr

/-- `llmAnalysis = apiData.llm_analysis || {}`. -/
def LLMAnalysis.empty : LLMAnalysis :=
  ⟨none, none, none, none, none, none⟩

/-- The `ApiFlashData` interface of `newsService.ts` (raw upstream item). -/
structure ApiFlashData where
  flash_id : Option String
  content : Option String
  publish_timestamp_utc : Option String
  tags : Option (List String)
  associated_symbols : Option (List AssocSymbol)
  llm_analysis : Option LLMAnalysis
deriving DecidableEq, Repr

/-- Sentiment normalization in `adaptApiDataToNewsItem`
(`newsService.ts` lines 80–88): default `neutral`; a present sentiment
text containing `积极` or `利好` gives `positive`, else one containing
`消极` or `利空` gives `negative`.  (A present-but-empty string is falsy
in the source; it lands on `neutral` here too, since it contains no
marker.) -/
def deriveSentiment (sentimentText : Option String) : Sentiment :=
  match sentimentText with
  | none => Sentiment.neutral
  | some s =>
      if strIncludes s "积极" || strIncludes s "利好" then Sentiment.positive
      else if strIncludes s "消极" || strIncludes s "利空" then Sentiment.negative
      else Sentiment.neutral

/-- The sentiment normalization as the spec's words describe it
(§4.2): positive on a positive marker, negative on a negative marker,
neutral when the text is absent or ambiguous — "contains markers of
both polarities or of neither".  Stated only to compare against
`deriveSentiment`, which embeds the source. -/
def specSentiment (sentimentText : Option String) : Sentiment :=
  match sentimentText with
  | none => Sentiment.neutral
  | some s =>
      let hasPos := strIncludes s "积极" || strIncludes s "利好"
      let hasNeg := strIncludes s "消极" || strIncludes s "利空"
      if hasPos && !hasNeg then Sentiment.positive
      else if hasNeg && !hasPos then Sentiment.negative
      else Sentiment.neutral

/-- `inferCategoryFromLLMAnalysis` of `newsService.ts` (lines
136–177). -/
def inferCategoryFromLLMAnalysis (llmAnalysis : LLMAnalysis) (content : String)
    (sentiment : Sentiment) (tags : List String) : String :=
  if (jsStr llmAnalysis.category).isSome then (jsStr llmAnalysis.category).getD ""
  else
    let contentLower := strToLower content
    let allTags := strToLower (String.intercalate " " tags)
    if strIncludes contentLower "政策" || strIncludes contentLower "监管" ||
        strIncludes contentLower "政府" || strIncludes allTags "政策" then "政策动态"
    else if strIncludes contentLower "涨停" || strIncludes contentLower "大涨" ||
        strIncludes contentLower "暴涨" || sentiment == Sentiment.positive then "市场热点"
    else if strIncludes contentLower "公司" || strIncludes contentLower "企业" ||
        strIncludes contentLower "业绩" || strIncludes contentLower "财报" then "公司动态"
    else if strIncludes contentLower "行业" || strIncludes contentLower "板块" ||
        strIncludes contentLower "概念" then "行业趋势"
    else "综合资讯"

/-- `adaptApiDataToNewsItem` of `newsService.ts` (lines 64–133). -/
def adaptApiDataToNewsItem (env : JsEnv) (apiData : ApiFlashData) : NewsItem :=
  let llmAnalysis := apiData.llm_analysis.getD LLMAnalysis.empty
  let title := jsStrOr llmAnalysis.suggested_title
      (jsStrOr (apiData.content.map (fun c => strTake c 100)) "无标题")
  let sentiment := deriveSentiment llmAnalysis.sentiment
  let tags := apiData.tags.getD []
  let stocks := (apiData.associated_symbols.getD []).map (fun symbol =>
      { name := jsStrOr symbol.name "未知"
        symbol := jsStrOr symbol.symbol ""
        market := jsStrOr symbol.market "" : StockRef })
  let coreInsight :=
    match jsStr llmAnalysis.summary with
    | some summary =>
        some { summary := summary
               keyPoint := jsStrOr (llmAnalysis.stock_specific_analysis.bind
                   (fun a => a.potential_impact))
                 (jsStrOr (llmAnalysis.macro_analysis.bind
                     (fun a => a.potential_market_impact))
                   "此条快讯核心观点生成中...") : CoreInsight }
    | none => none
  let category :=
    match jsStr llmAnalysis.category with
    | some c => c
    | none => inferCategoryFromLLMAnalysis llmAnalysis (apiData.content.getD "") sentiment tags
  { id := jsStrOr apiData.flash_id ("temp-" ++ toString env.nowMs)
    title := title
    content := jsStrOr apiData.content "无内容"
    publishTime := jsStrOr apiData.publish_timestamp_utc (env.isoOfMs env.nowMs)
    sentiment := sentiment
    tags := tags
    stocks := stocks
    coreInsight := coreInsight
    category := category }

/-- One entry of `allMockTemplates` in `generatePaginatedMockData`. -/
structure MockTemplate where
  titleTemplate : String
  contentTemplate : String
  sentiment : Sentiment
  tags : List String
  stocks : List StockRef
  category : String
deriving DecidableEq, Repr

/-- The five `allMockTemplates` of `newsService.ts` (lines 181–237). -/
def allMockTemplates : List MockTemplate :=
  [ { titleTemplate := "新能源汽车补贴政策延长，预计将刺激行业销量大幅增长"
      contentTemplate := "国务院宣布将延长新能源汽车购置补贴和免征车辆购置税政策至2024年底。AI分析显示，此举将显著提振汽车行业销量15-20%，尤其对于中端纯电动车型。"
      sentiment := Sentiment.positive
      tags := ["新能源汽车", "政策利好", "产业链"]
      stocks := [⟨"比亚迪", "SZ002594", "SZ"⟩, ⟨"宁德时代", "SZ300750", "SZ"⟩]
      category := "政策动态" }
  , { titleTemplate := "半导体行业库存周期触底，市场需求回暖"
      contentTemplate := "银行业数据显示，半导体行业超预期好转，市场需求正在回暖。AI分析认为这预示着半年多的库存调整接近尾声。"
      sentiment := Sentiment.neutral
      tags := ["半导体", "库存周期", "电子元器件"]
      stocks := [⟨"中芯国际", "SH688981", "SH"⟩, ⟨"韦尔股份", "SH603501", "SH"⟩]
      category := "行业趋势" }
  , { titleTemplate := "央行下调存款准备金率，释放长期资金"
      contentTemplate := "中国人民银行宣布全面下调金融机构存款准备金率。AI分析表示，此举将释放长期资金，有利于提振市场信心。"
      sentiment := Sentiment.positive
      tags := ["央行政策", "货币宽松", "银行业"]
      stocks := [⟨"工商银行", "SH601398", "SH"⟩, ⟨"万科A", "SZ000002", "SZ"⟩]
      category := "政策动态" }
  , { titleTemplate := "医药龙头企业研发进展，临床试验结果出炉"
      contentTemplate := "恒瑞医药发布重磅药物临床试验结果。AI分析指出，这将对该公司研发管线产生重要影响。"
      sentiment := Sentiment.negative
      tags := ["医药生物", "临床试验", "研发"]
      stocks := [⟨"恒瑞医药", "SH600276", "SH"⟩, ⟨"药明康德", "SH603259", "SH"⟩]
      category := "公司动态" }
  , { titleTemplate := "芯片巨头推出新一代AI处理器，性能大幅提升"
      contentTemplate := "英伟达发布最新一代GPU架构，与上代相比算力大幅提升。这款芯片主要面向AI训练和推理场景。"
      sentiment := Sentiment.positive
      tags := ["AI芯片", "技术突破", "高性能计算"]
      stocks := [⟨"英伟达", "NVDA", "NASDAQ"⟩, ⟨"寒武纪", "SH688256", "SH"⟩]
      category := "重大先机" }
  ]

/-- The default used by the (always in-range) modular index into
`allMockTemplates`. -/
def defaultMockTemplate : MockTemplate :=
  ⟨"", "", Sentiment.neutral, [], [], ""⟩

/-- `generatePaginatedMockData` of `newsService.ts` (lines 180–267):
`limit` items for the given zero-based mock page, cycling through the
five templates, stopping once the absolute item index reaches 100. -/
def generatePaginatedMockData (env : JsEnv) (page : Nat) (limit : Nat) : List NewsItem :=
  let startIndex := page * limit
  ((List.range limit).takeWhile (fun i => startIndex + i < 100)).map (fun i =>
    let itemIndex := startIndex + i
    let template := allMockTemplates.getD (itemIndex % allMockTemplates.length)
        defaultMockTemplate
    { id := "mock-" ++ toString (itemIndex + 1)
      title := template.titleTemplate ++ " (第" ++ toString (itemIndex + 1) ++ "条)"
      content := template.contentTemplate ++ " 这是第" ++ toString (itemIndex + 1) ++
          "条模拟快讯数据。"
      publishTime := env.isoOfMs (env.nowMs - (itemIndex + 1) * 15 * 60000)
      sentiment := template.sentiment
      tags := template.tags
      stocks := template.stocks
      coreInsight := some ⟨"模拟分析摘要 " ++ toString (itemIndex + 1),
          "这是第" ++ toString (itemIndex + 1) ++ "条快讯的核心观点分析"⟩
      category := template.category })

/-- `FetchNewsParams` of `newsService.ts`. -/
structure FetchNewsParams where
  skip : Option String
  limit : Option String
  sentiment : Option String
deriving DecidableEq, Repr

/-- `parseInt` on the decimal numerals the call sites produce. -/
def parseIntJs (s : String) : Nat :=
  s.data.foldl (fun n c => n * 10 + (c.toNat - 48)) 0

/-- What `apiClient.get` handed back to `fetchNewsData`: a raised
classified error, or a JSON body that either is not a (nonempty-able)
array or is an array of raw items. -/
inductive UpstreamBody where
  | notArray
  | arr (items : List ApiFlashData)
deriving DecidableEq

/-- The mock page number and limit computed in `fetchNewsData`'s
fallback paths: `page = Math.floor(skip / limit)`. -/
def mockPageArgs (params : FetchNewsParams) : Nat × Nat :=
  let skip := parseIntJs (params.skip.getD "0")
  let limit := parseIntJs (params.limit.getD "20")
  (skip / limit, limit)

/-- `fetchNewsData` of `newsService.ts` (lines 277–310), with the
outcome of `apiClient.get` passed in explicitly.  The result type
allows a classified error so that (non-)propagation is expressible;
the source function catches every error and returns mock data, so
every branch below is `Except.ok`. -/
def fetchNewsData (env : JsEnv) (params : FetchNewsParams)
    (upstream : Except ApiError UpstreamBody) : Except ApiError (List NewsItem) :=
  match upstream with
  | Except.ok body =>
      match body with
      | UpstreamBody.notArray =>
          Except.ok (generatePaginatedMockData env (mockPageArgs params).1 (mockPageArgs params).2)
      | UpstreamBody.arr items =>
          if items.length = 0 then
            Except.ok (generatePaginatedMockData env (mockPageArgs params).1 (mockPageArgs params).2)
          else
            Except.ok (items.map (adaptApiDataToNewsItem env))
  | Except.error _ =>
      Except.ok (generatePaginatedMockData env (mockPageArgs params).1 (mockPageArgs params).2)

/-! ## apiClient.ts : the resilient request client -/

/-- The outcome of one attempt in `ApiClient.request`: the `try` body
either yields the parsed payload (fetch completed, `response.ok`, body
decoded), or throws — an `ApiError` on a non-success status, or some
other exception (transport failure, timeout abort, JSON parse
failure), carrying its message. -/
inductive AttemptOutcome (α : Type) where
  | ok (payload : α)
  | httpFail (status : Nat) (statusText : String) (body : String)
  | exnFail (message : String)
deriving DecidableEq, Repr

/-- Is this attempt a failure for retry purposes? -/
def AttemptOutcome.isFail {α : Type} : AttemptOutcome α → Bool
  | AttemptOutcome.ok _ => false
  | _ => true

/-- The error `request` raises for a failed attempt: an `ApiError`
thrown for a non-2xx response is re-raised verbatim; any other
exception is wrapped as `ApiError(message, 0, error)` (lines 104–113
of `apiClient.ts`).  The `ok` case never reaches this classification;
it is mapped to a dummy error to keep the function total. -/
def classifyOutcome {α : Type} : AttemptOutcome α → ApiError
  | AttemptOutcome.ok _ => ⟨"", 0, none⟩
  | AttemptOutcome.httpFail status statusText body =>
      ⟨"请求失败: " ++ toString status ++ " " ++ statusText, status, some body⟩
  | AttemptOutcome.exnFail message =>
      ⟨"请求失败: " ++ message, 0, some message⟩

/-- The retry loop of `ApiClient.request` (lines 76–119 of
`apiClient.ts`).  `attempt` is the current 0-based attempt index and
`remaining` the number of attempts still allowed after it (so the
loop's `attempt === retries` exit test is `remaining = 0`).  Returns
the result, the number of attempts performed so far counted from
`attempt`, and the list of backoff delays awaited
(`retryDelay * (attempt + 1)` after each failed, non-final attempt). -/
def requestGo {α : Type} (outcomes : Nat → AttemptOutcome α) (retryDelay : Nat) :
    (attempt : Nat) → (remaining : Nat) → Except ApiError α × Nat × List Nat
  | attempt, 0 =>
      match outcomes attempt with
      | AttemptOutcome.ok p => (Except.ok p, attempt + 1, [])
      | e => (Except.error (classifyOutcome e), attempt + 1, [])
  | attempt, remaining + 1 =>
      match outcomes attempt with
      | AttemptOutcome.ok p => (Except.ok p, attempt + 1, [])
      | _ =>
          let rest := requestGo outcomes retryDelay (attempt + 1) remaining
          (rest.1, rest.2.1, retryDelay * (attempt + 1) :: rest.2.2)

/-- `ApiClient.request` with the per-attempt outcomes passed in
explicitly: run attempts `0 .. retries`, return on the first success,
classify and raise the last failure.  The triple is
(result, attempts performed, backoff delays awaited). -/
def request {α : Type} (outcomes : Nat → AttemptOutcome α) (retries retryDelay : Nat) :
    Except ApiError α × Nat × List Nat :=
  requestGo outcomes retryDelay 0 retries

/-! ## Concrete fixtures for witnesses and counterexamples -/

/-- A minimal concrete `NewsItem` with the given id. -/
def mkSimpleItem (id : String) : NewsItem :=
  { id := id
    title := "标题"
    content := "内容"
    publishTime := "2025-01-01T00:00:00Z"
    sentiment := Sentiment.neutral
    tags := []
    stocks := []
    coreInsight := none
    category := "其他" }

/-- A concrete record used in several concrete runs. -/
def itemA : NewsItem := mkSimpleItem "a"

/-- A concrete important, negative record. -/
def itemImportant : NewsItem :=
  { mkSimpleItem "b" with category := "重大先机", sentiment := Sentiment.negative }

/-- A loaded state whose feed is exhausted. -/
def stExhausted : HomeState :=
  { initialHomeState with isLoading := false, hasMore := false, allNews := [itemA] }

/-- A loaded, non-exhausted, non-in-flight state with an empty feed. -/
def stReady : HomeState :=
  { initialHomeState with isLoading := false }

/-- A loaded state already holding the record with id `"0"`. -/
def stSeeded : HomeState :=
  { initialHomeState with isLoading := false, allNews := [mkSimpleItem "0"] }

/-- A fetched page of exactly `ITEMS_PER_PAGE` records with ids
`"0" .. "19"`; id `"0"` collides with `stSeeded`'s feed. -/
def fetchedTwenty : List NewsItem :=
  (List.range 20).map (fun n => mkSimpleItem (toString n))

/-- A single `loadFirstPage` whose fetched page repeats one id. -/
def dupPageEvents : List FeedEvent :=
  [FeedEvent.firstPage (Except.ok [itemA, itemA])]

/-- A concrete JavaScript environment. -/
def envX : JsEnv := ⟨0, fun _ => ""⟩

/-- A concrete classified error. -/
def errX : ApiError := ⟨"请求失败: boom", 0, some "boom"⟩

/-- Concrete fetch parameters: first page, limit 20. -/
def paramsX : FetchNewsParams := ⟨some "0", some "20", none⟩

/-- Attempt outcomes where attempt 0 times out and attempt 1 parses
payload `7`. -/
def wOutcomes : Nat → AttemptOutcome Nat :=
  fun n => if n = 0 then AttemptOutcome.exnFail "timeout" else AttemptOutcome.ok 7

/-- A sentiment text containing markers of both polarities. -/
def ambiguousSentimentText : String := "积极但利空"

/-- A `loadMore` outcome that appends nothing: a failed fetch, an
empty page, or a page whose every id is already present in `st`. -/
def noAppendOutcome (st : HomeState) : Except ApiError (List NewsItem) → Prop
  | Except.error _ => True
  | Except.ok l =>
      l = [] ∨ l.filter (fun item => !((existingIdsOf st).contains item.id)) = []

/-! ## Theorems -/

/-- C6 — Exhaustion monotonicity: from any state with `exhausted`
(`hasMore = false`), every sequence of further `loadMore()` calls,
whatever their fetch outcomes, leaves the entire `FeedState`
unchanged (only a `loadFirstPage()` can reset it). -/
theorem loadMore_noop_of_exhausted (st : HomeState) (h : st.hasMore = false)
    (rs : List (Except ApiError (List NewsItem))) :
    rs.foldl loadMoreData st = st := by
  induction rs with
  | nil => rfl
  | cons r rs ih =>
      have hstep : loadMoreData st r = st := by
        unfold loadMoreData
        simp [h]
      rw [List.foldl_cons, hstep]
      exact ih

/-- Witness for C6 at a concrete exhausted state and two further
`loadMore` outcomes. -/
theorem loadMore_noop_of_exhausted_witness :
    [Except.ok [itemImportant], Except.error errX].foldl loadMoreData stExhausted =
      stExhausted :=
  loadMore_noop_of_exhausted stExhausted (by decide) _

/-- C9 (amended) — `loadMore()` failure: with no load in flight and
the feed not exhausted, a fetch failure leaves every component of the
state unchanged except `hasMore`, which becomes false; in particular
`records` and the error banner are untouched and the error is
swallowed rather than surfaced. -/
theorem loadMore_failure_atomic (st : HomeState) (e : ApiError)
    (hInflight : st.isLoadingMore = false) (hMore : st.hasMore = true) :
    loadMoreData st (Except.error e) = { st with hasMore := false } := by
  unfold loadMoreData
  simp [hInflight, hMore]

/-- Witness for the amended C9 at a concrete state and error. -/
theorem loadMore_failure_atomic_witness :
    loadMoreData stReady (Except.error errX) = { stReady with hasMore := false } :=
  loadMore_failure_atomic stReady errX (by decide) (by decide)

/-- C9 counterexample — the claim's "surfaces the error to the
caller" clause fails: on a failing `loadMore()` fetch the component's
error indicator stays `none` (the `catch` block ignores `err`;
nothing is rethrown and `setError` is never called), even though
records are left unchanged and `exhausted` is set as claimed. -/
theorem loadMore_failure_surfaces_nothing_cex :
    stReady.isLoadingMore = false ∧ stReady.hasMore = true ∧ stReady.error = none ∧
    (loadMoreData stReady (Except.error errX)).allNews = stReady.allNews ∧
    (loadMoreData stReady (Except.error errX)).hasMore = false ∧
    (loadMoreData stReady (Except.error errX)).error = none := by
  decide

/-- Characterization of a successful `loadMoreData` call once the
concurrency/exhaustion guard has passed (helper). -/
theorem loadMoreData_ok_eq (st : HomeState) (l : List NewsItem)
    (hInflight : st.isLoadingMore = false) (hMore : st.hasMore = true) :
    loadMoreData st (Except.ok l) =
      (if l.length = 0 then { st with hasMore := false }
       else
        if (l.filter (fun item => !((existingIdsOf st).contains item.id))).length = 0 then
          { st with hasMore := false }
        else
          { st with
              allNews := st.allNews ++
                l.filter (fun item => !((existingIdsOf st).contains item.id))
              page := st.page + 1
              hasMore := decide (ITEMS_PER_PAGE ≤
                (l.filter (fun item => !((existingIdsOf st).contains item.id))).length) }) := by
  unfold loadMoreData
  rw [hInflight, hMore]
  rfl

/-- Characterization of a failed `loadMoreData` call once the
concurrency/exhaustion guard has passed (helper). -/
theorem loadMoreData_error_eq (st : HomeState) (e : ApiError)
    (hInflight : st.isLoadingMore = false) (hMore : st.hasMore = true) :
    loadMoreData st (Except.error e) = { st with hasMore := false } := by
  unfold loadMoreData
  rw [hInflight, hMore]
  rfl

/-- C2 — Order preservation: under the concurrency guard, a
successful `loadMore()` leaves the previously present records as an
unchanged prefix of the new `records`, and what follows that prefix is
exactly the fetched records whose ids were not already present, in the
order the upstream returned them (empty when nothing is appended). -/
theorem loadMore_preserves_order (st : HomeState) (fetched : List NewsItem)
    (hInflight : st.isLoadingMore = false) (hMore : st.hasMore = true) :
    (loadMoreData st (Except.ok fetched)).allNews.take st.allNews.length = st.allNews ∧
    (loadMoreData st (Except.ok fetched)).allNews.drop st.allNews.length =
      fetched.filter (fun item => !((existingIdsOf st).contains item.id)) := by
  rw [loadMoreData_ok_eq st fetched hInflight hMore]
  by_cases hlen : fetched.length = 0
  · have hnil : fetched = [] := List.eq_nil_of_length_eq_zero hlen
    subst hnil
    rw [if_pos hlen]
    exact ⟨List.take_length _, by rw [List.drop_length]; rfl⟩
  · rw [if_neg hlen]
    by_cases huniq :
        (fetched.filter (fun item => !((existingIdsOf st).contains item.id))).length = 0
    · have hnil := List.eq_nil_of_length_eq_zero huniq
      rw [if_pos huniq]
      exact ⟨List.take_length _, by rw [List.drop_length, hnil]⟩
    · rw [if_neg huniq]
      exact ⟨List.take_left _ _, List.drop_left _ _⟩

/-- Witness for C2: one record present, a two-record page of which one
id is fresh. -/
theorem loadMore_preserves_order_witness :
    (loadMoreData stSeeded (Except.ok [mkSimpleItem "0", itemA])).allNews.take
        stSeeded.allNews.length = stSeeded.allNews ∧
    (loadMoreData stSeeded (Except.ok [mkSimpleItem "0", itemA])).allNews.drop
        stSeeded.allNews.length =
      [mkSimpleItem "0", itemA].filter
        (fun item => !((existingIdsOf stSeeded).contains item.id)) :=
  loadMore_preserves_order stSeeded [mkSimpleItem "0", itemA] (by decide) (by decide)

/-- C10 — Cursor frame on non-appending `loadMore()`: a call whose
fetch fails, returns no records, or returns only already-present ids
leaves both `records` and the page cursor unchanged; and whenever the
cursor does move it moves by exactly one page, with at least one new
unique record appended. -/
theorem loadMore_cursor_frame (st : HomeState) (r : Except ApiError (List NewsItem)) :
    (noAppendOutcome st r →
      (loadMoreData st r).allNews = st.allNews ∧ (loadMoreData st r).page = st.page) ∧
    ((loadMoreData st r).page ≠ st.page →
      (loadMoreData st r).page = st.page + 1 ∧
      st.allNews.length < (loadMoreData st r).allNews.length) := by
  by_cases hguard : (st.isLoadingMore || !st.hasMore) = true
  · have hst : loadMoreData st r = st := by
      unfold loadMoreData
      rw [if_pos hguard]
    rw [hst]
    exact ⟨fun _ => ⟨rfl, rfl⟩, fun h => absurd rfl h⟩
  · have hInflight : st.isLoadingMore = false := by
      cases h : st.isLoadingMore
      · rfl
      · exact absurd (by rw [h]; rfl) hguard
    have hMore : st.hasMore = true := by
      cases h : st.hasMore
      · exact absurd (by rw [h, hInflight]; rfl) hguard
      · rfl
    match r with
    | Except.error e =>
        have hst : loadMoreData st (Except.error e) = { st with hasMore := false } :=
          loadMoreData_error_eq st e hInflight hMore
        rw [hst]
        exact ⟨fun _ => ⟨rfl, rfl⟩, fun h => absurd rfl h⟩
    | Except.ok l =>
        rw [loadMoreData_ok_eq st l hInflight hMore]
        by_cases hlen : l.length = 0
        · rw [if_pos hlen]
          exact ⟨fun _ => ⟨rfl, rfl⟩, fun h => absurd rfl h⟩
        · rw [if_neg hlen]
          by_cases huniq :
              (l.filter (fun item => !((existingIdsOf st).contains item.id))).length = 0
          · rw [if_pos huniq]
            exact ⟨fun _ => ⟨rfl, rfl⟩, fun h => absurd rfl h⟩
          · rw [if_neg huniq]
            have hpos : 0 < (l.filter (fun item =>
                !((existingIdsOf st).contains item.id))).length := Nat.pos_of_ne_zero huniq
            constructor
            · intro hno
              rcases hno with hnil | hfil
              · exact absurd (by rw [hnil]; rfl : l.length = 0) hlen
              · rw [hfil] at hpos
                exact absurd hpos (by simp)
            · intro _
              refine ⟨rfl, ?_⟩
              simp only [List.length_append]
              omega

/-- Witness for C10 at a concrete state: a failing fetch appends
nothing and leaves the cursor in place. -/
theorem loadMore_cursor_frame_witness :
    (loadMoreData stSeeded (Except.error errX)).allNews = stSeeded.allNews ∧
    (loadMoreData stSeeded (Except.error errX)).page = stSeeded.page :=
  (loadMore_cursor_frame stSeeded (Except.error errX)).1 trivial

/-- C5 — Change Detector contract: no decision when the previous id
set is empty (first load never notifies) or when the delta (fetched
records with fresh ids) is empty; otherwise exactly the decision whose
count is the delta's size, whose importance flag holds when some delta
record has the high-priority category or a tag containing the focus
marker, and whose dominant sentiment is the first delta record's
sentiment. -/
theorem onRefreshComplete_contract (previousIds : List String) (newRecords : List NewsItem) :
    (previousIds = [] → onRefreshComplete previousIds newRecords = none) ∧
    (newRecords.filter (fun item => !(previousIds.contains item.id)) = [] →
      onRefreshComplete previousIds newRecords = none) ∧
    (∀ first rest, previousIds ≠ [] →
      newRecords.filter (fun item => !(previousIds.contains item.id)) = first :: rest →
      onRefreshComplete previousIds newRecords =
        some { count := (first :: rest).length
               hasImportant := (first :: rest).any isImportantItem
               dominantSentiment := first.sentiment }) := by
  refine ⟨?_, ?_, ?_⟩
  · intro h
    subst h
    rfl
  · intro hdelta
    unfold onRefreshComplete
    by_cases hprev : 0 < previousIds.length
    · rw [if_pos hprev, hdelta]
    · rw [if_neg hprev]
  · intro first rest hprev hdelta
    unfold onRefreshComplete
    have hlen : 0 < previousIds.length := by
      cases previousIds with
      | nil => exact absurd rfl hprev
      | cons a l => exact Nat.succ_pos _
    rw [if_pos hlen, hdelta]

/-- Witness for C5: previous ids `{"x"}`, one fresh important
negative record. -/
theorem onRefreshComplete_contract_witness :
    onRefreshComplete ["x"] [itemImportant] =
      some { count := 1, hasImportant := true, dominantSentiment := Sentiment.negative } := by
  have h := (onRefreshComplete_contract ["x"] [itemImportant]).2.2 itemImportant []
      (by decide) (by decide)
  rw [h]
  decide

/-- C3 counterexample — the claim ties `exhausted` to the whole
fetched page's count: here a non-exhausted, non-in-flight state
receives a successful page of exactly `ITEMS_PER_PAGE` records, 19 of
them fresh, so the claim requires `exhausted = false`
(fetched count = page size); the code instead compares the filtered
unique count (19 < 20) and sets `exhausted = true`. -/
theorem loadMore_exhaustion_count_cex :
    stSeeded.isLoadingMore = false ∧ stSeeded.hasMore = true ∧
    fetchedTwenty.length = ITEMS_PER_PAGE ∧
    (fetchedTwenty.filter
        (fun item => !((existingIdsOf stSeeded).contains item.id))).length = 19 ∧
    (loadMoreData stSeeded (Except.ok fetchedTwenty)).page = stSeeded.page + 1 ∧
    (loadMoreData stSeeded (Except.ok fetchedTwenty)).hasMore = false ∧
    ¬(fetchedTwenty.length < ITEMS_PER_PAGE) := by
  decide

/-- C3 (amended) — a guarded, successful `loadMore()` that appends at
least one fresh record advances the page cursor by exactly one page
(the next fetch offset grows by the page size) and sets `exhausted`
exactly when the number of appended unique records — not the whole
fetched page — is below `ITEMS_PER_PAGE`. -/
theorem loadMore_advances_and_exhausts (st : HomeState) (fetched : List NewsItem)
    (hInflight : st.isLoadingMore = false) (hMore : st.hasMore = true)
    (first : NewsItem) (rest : List NewsItem)
    (hUnique : fetched.filter (fun item => !((existingIdsOf st).contains item.id)) =
      first :: rest) :
    (loadMoreData st (Except.ok fetched)).page = st.page + 1 ∧
    ((loadMoreData st (Except.ok fetched)).hasMore = false ↔
      (fetched.filter (fun item => !((existingIdsOf st).contains item.id))).length <
        ITEMS_PER_PAGE) := by
  rw [loadMoreData_ok_eq st fetched hInflight hMore]
  have hlen : ¬fetched.length = 0 := by
    intro h0
    rw [List.eq_nil_of_length_eq_zero h0] at hUnique
    exact List.noConfusion hUnique
  have huniq : ¬(fetched.filter
      (fun item => !((existingIdsOf st).contains item.id))).length = 0 := by
    rw [hUnique]
    exact Nat.succ_ne_zero _
  rw [if_neg hlen, if_neg huniq]
  refine ⟨rfl, ?_⟩
  show decide (ITEMS_PER_PAGE ≤ (fetched.filter
      (fun item => !((existingIdsOf st).contains item.id))).length) = false ↔ _
  rw [decide_eq_false_iff_not]
  exact ⟨Nat.lt_of_not_le, Nat.not_le_of_lt⟩

/-- Witness for the amended C3 at `stSeeded` and the concrete
20-record page. -/
theorem loadMore_advances_and_exhausts_witness :
    (loadMoreData stSeeded (Except.ok fetchedTwenty)).page = stSeeded.page + 1 ∧
    ((loadMoreData stSeeded (Except.ok fetchedTwenty)).hasMore = false ↔
      (fetchedTwenty.filter
          (fun item => !((existingIdsOf stSeeded).contains item.id))).length <
        ITEMS_PER_PAGE) := by
  refine loadMore_advances_and_exhausts stSeeded fetchedTwenty (by decide) (by decide)
      (mkSimpleItem "1")
      ((List.range 18).map (fun n => mkSimpleItem (toString (n + 2)))) ?_
  decide

/-- The two components of a passed `loadMore` guard (helper). -/
theorem guard_false_parts (st : HomeState)
    (hguard : ¬(st.isLoadingMore || !st.hasMore) = true) :
    st.isLoadingMore = false ∧ st.hasMore = true := by
  cases h1 : st.isLoadingMore
  · cases h2 : st.hasMore
    · exact absurd (by rw [h1, h2]; rfl) hguard
    · exact ⟨rfl, rfl⟩
  · exact absurd (by rw [h1]; rfl) hguard

/-- A failed `loadMore` never changes the id multiset (helper). -/
theorem loadMore_error_preserves_nodup (st : HomeState) (e : ApiError)
    (hst : (existingIdsOf st).Nodup) :
    (existingIdsOf (loadMoreData st (Except.error e))).Nodup := by
  by_cases hguard : (st.isLoadingMore || !st.hasMore) = true
  · unfold loadMoreData
    rw [if_pos hguard]
    exact hst
  · obtain ⟨hInflight, hMore⟩ := guard_false_parts st hguard
    rw [loadMoreData_error_eq st e hInflight hMore]
    exact hst

/-- A successful `loadMore` keeps the ids duplicate-free provided the
fetched page itself repeats no id (helper). -/
theorem loadMore_ok_preserves_nodup (st : HomeState) (l : List NewsItem)
    (hst : (existingIdsOf st).Nodup) (hl : (l.map (fun item => item.id)).Nodup) :
    (existingIdsOf (loadMoreData st (Except.ok l))).Nodup := by
  by_cases hguard : (st.isLoadingMore || !st.hasMore) = true
  · unfold loadMoreData
    rw [if_pos hguard]
    exact hst
  · obtain ⟨hInflight, hMore⟩ := guard_false_parts st hguard
    rw [loadMoreData_ok_eq st l hInflight hMore]
    by_cases hlen : l.length = 0
    · rw [if_pos hlen]
      exact hst
    · rw [if_neg hlen]
      by_cases huniq :
          (l.filter (fun item => !((existingIdsOf st).contains item.id))).length = 0
      · rw [if_pos huniq]
        exact hst
      · rw [if_neg huniq]
        show ((st.allNews ++
            l.filter (fun item => !((existingIdsOf st).contains item.id))).map
            (fun item => item.id)).Nodup
        rw [List.map_append]
        refine List.Nodup.append hst ?_ ?_
        · exact List.Nodup.sublist (List.Sublist.map _ (List.filter_sublist l)) hl
        · intro a ha hb
          obtain ⟨x, hx, hxa⟩ := List.mem_map.mp hb
          have hpred := (List.mem_filter.mp hx).2
          have hc : (existingIdsOf st).contains x.id = false := by
            cases hcc : (existingIdsOf st).contains x.id
            · rfl
            · rw [hcc] at hpred
              exact absurd hpred (by decide)
          have hnm : x.id ∉ existingIdsOf st := by simpa using hc
          rw [← hxa] at ha
          exact hnm ha

/-- One engine step keeps the ids duplicate-free when the step's
fetched page is internally duplicate-free (helper). -/
theorem feedStep_preserves_nodup (st : HomeState) (ev : FeedEvent)
    (hst : (existingIdsOf st).Nodup) (hev : eventPageNodup ev) :
    (existingIdsOf (feedStep st ev)).Nodup := by
  cases ev with
  | firstPage r =>
      cases r with
      | ok l => exact hev
      | error e => exact hst
  | more r =>
      cases r with
      | ok l => exact loadMore_ok_preserves_nodup st l hst hev
      | error e => exact loadMore_error_preserves_nodup st e hst

/-- C1 (amended) — Dedup invariant under a page-uniqueness premise:
starting from any state whose feed ids are duplicate-free, every
sequence of `loadFirstPage`/`loadMore` calls whose successfully
fetched pages contain no internal duplicate ids yields a feed whose
`records` contain no two elements with equal id.  (The premise is
needed: neither operation dedups a page against itself, see the
counterexample.) -/
theorem dedup_invariant (st : HomeState) (evs : List FeedEvent)
    (hst : (existingIdsOf st).Nodup) (hevs : ∀ ev ∈ evs, eventPageNodup ev) :
    (existingIdsOf (runEvents st evs)).Nodup := by
  induction evs generalizing st with
  | nil => exact hst
  | cons ev evs ih =>
      exact ih (feedStep st ev)
        (feedStep_preserves_nodup st ev hst (hevs ev (List.mem_cons_self ev evs)))
        (fun e he => hevs e (List.mem_cons_of_mem ev he))

/-- Witness for the amended C1: a first page and an overlapping
load-more page, each internally duplicate-free. -/
theorem dedup_invariant_witness :
    (existingIdsOf (runEvents initialHomeState
      [FeedEvent.firstPage (Except.ok [itemA]),
       FeedEvent.more (Except.ok [itemA, itemImportant])])).Nodup := by
  refine dedup_invariant initialHomeState _ (by decide) ?_
  intro ev hev
  rcases List.mem_cons.mp hev with h | h
  · subst h
    show ([itemA].map (fun item => item.id)).Nodup
    decide
  · rcases List.mem_cons.mp h with h2 | h2
    · subst h2
      show ([itemA, itemImportant].map (fun item => item.id)).Nodup
      decide
    · cases h2

/-- C1 counterexample — the claim admits a fetched page that repeats
an id and still promises duplicate-free `records`; but
`loadFirstPage` stores the fetched page verbatim (no internal dedup),
so a page `[a, a]` produces a feed whose ids are not duplicate-free. -/
theorem dedup_invariant_cex :
    ¬(existingIdsOf (runEvents initialHomeState dupPageEvents)).Nodup := by
  decide

/-- C8 counterexample — on a sentiment text containing markers of
both polarities the claim requires `neutral` ("ambiguous"), but the
source's if/else-if chain gives positive markers precedence and
returns `positive`; the spec-worded `specSentiment` and the embedded
`deriveSentiment` disagree at this input. -/
theorem deriveSentiment_ambiguous_cex :
    strIncludes ambiguousSentimentText "积极" = true ∧
    strIncludes ambiguousSentimentText "利空" = true ∧
    deriveSentiment (some ambiguousSentimentText) = Sentiment.positive ∧
    specSentiment (some ambiguousSentimentText) = Sentiment.neutral ∧
    deriveSentiment (some ambiguousSentimentText) ≠
      specSentiment (some ambiguousSentimentText) := by
  decide

/-- C8 (amended) — Sentiment normalization: absent text gives
`neutral`; a text containing a positive marker gives `positive`
(positive markers take precedence even when a negative marker is also
present); a text with no positive marker but a negative marker gives
`negative`; a text with markers of neither polarity gives `neutral`. -/
theorem deriveSentiment_characterization (t : Option String) :
    (t = none → deriveSentiment t = Sentiment.neutral) ∧
    (∀ s, t = some s →
      ((strIncludes s "积极" || strIncludes s "利好") = true →
        deriveSentiment t = Sentiment.positive) ∧
      ((strIncludes s "积极" || strIncludes s "利好") = false →
        (strIncludes s "消极" || strIncludes s "利空") = true →
        deriveSentiment t = Sentiment.negative) ∧
      ((strIncludes s "积极" || strIncludes s "利好") = false →
        (strIncludes s "消极" || strIncludes s "利空") = false →
        deriveSentiment t = Sentiment.neutral)) := by
  constructor
  · intro h
    subst h
    rfl
  · intro s hs
    subst hs
    refine ⟨?_, ?_, ?_⟩
    · intro hpos
      show (if (strIncludes s "积极" || strIncludes s "利好") = true then Sentiment.positive
        else if (strIncludes s "消极" || strIncludes s "利空") = true then Sentiment.negative
        else Sentiment.neutral) = Sentiment.positive
      rw [if_pos hpos]
    · intro hpos hneg
      show (if (strIncludes s "积极" || strIncludes s "利好") = true then Sentiment.positive
        else if (strIncludes s "消极" || strIncludes s "利空") = true then Sentiment.negative
        else Sentiment.neutral) = Sentiment.negative
      rw [if_neg (by rw [hpos]; exact Bool.false_ne_true), if_pos hneg]
    · intro hpos hneg
      show (if (strIncludes s "积极" || strIncludes s "利好") = true then Sentiment.positive
        else if (strIncludes s "消极" || strIncludes s "利空") = true then Sentiment.negative
        else Sentiment.neutral) = Sentiment.neutral
      rw [if_neg (by rw [hpos]; exact Bool.false_ne_true),
        if_neg (by rw [hneg]; exact Bool.false_ne_true)]

/-- Witness for the amended C8 on a concrete negative-marker text. -/
theorem deriveSentiment_characterization_witness :
    deriveSentiment (some "偏利空") = Sentiment.negative :=
  ((deriveSentiment_characterization (some "偏利空")).2 "偏利空" rfl).2.1
    (by decide) (by decide)

/-- C4 counterexample — the claim says `fetchNewsData` propagates a
classified upstream error and never substitutes data itself; but on a
failing upstream call it returns the locally generated mock page
instead of the error: the fallback substitution happens inside the
fetcher. -/
theorem fetchNewsData_fallback_cex :
    fetchNewsData envX paramsX (Except.error errX) ≠ Except.error errX ∧
    fetchNewsData envX paramsX (Except.error errX) =
      Except.ok (generatePaginatedMockData envX 0 20) := by
  have h : fetchNewsData envX paramsX (Except.error errX) =
      Except.ok (generatePaginatedMockData envX 0 20) := by rfl
  rw [h]
  exact ⟨fun hcontra => Except.noConfusion hcontra, rfl⟩

/-- C4 (amended) — `fetchNewsData` never propagates an error: every
outcome maps to `Except.ok`, and on a classified upstream error it
substitutes the locally generated paginated mock dataset itself (page
`⌊skip / limit⌋`, size `limit`); the fallback happens inside the
fetcher, not at its caller boundary. -/
theorem fetchNewsData_never_propagates (env : JsEnv) (params : FetchNewsParams)
    (upstream : Except ApiError UpstreamBody) :
    (fetchNewsData env params upstream).isOk = true ∧
    (∀ e, upstream = Except.error e →
      fetchNewsData env params upstream =
        Except.ok (generatePaginatedMockData env
          (mockPageArgs params).1 (mockPageArgs params).2)) := by
  constructor
  · cases upstream with
    | error e => rfl
    | ok body =>
        cases body with
        | notArray => rfl
        | arr items =>
            have h : fetchNewsData env params (Except.ok (UpstreamBody.arr items)) =
                (if items.length = 0 then
                  Except.ok (generatePaginatedMockData env
                    (mockPageArgs params).1 (mockPageArgs params).2)
                else Except.ok (items.map (adaptApiDataToNewsItem env))) := rfl
            rw [h]
            by_cases hlen : items.length = 0
            · rw [if_pos hlen]
              rfl
            · rw [if_neg hlen]
              rfl
  · intro e he
    subst he
    rfl

/-- Witness for the amended C4 at concrete parameters and error. -/
theorem fetchNewsData_never_propagates_witness :
    fetchNewsData envX paramsX (Except.error errX) =
      Except.ok (generatePaginatedMockData envX
        (mockPageArgs paramsX).1 (mockPageArgs paramsX).2) :=
  (fetchNewsData_never_propagates envX paramsX (Except.error errX)).2 errX rfl

/-- The retry loop performs at most one attempt more than its
remaining-attempt budget (helper). -/
theorem requestGo_attempts_le {α : Type} (outcomes : Nat → AttemptOutcome α)
    (retryDelay : Nat) :
    ∀ remaining attempt,
      (requestGo outcomes retryDelay attempt remaining).2.1 ≤ attempt + remaining + 1 := by
  intro remaining
  induction remaining with
  | zero =>
      intro attempt
      cases h : outcomes attempt <;> simp [requestGo, h]
  | succ r ih =>
      intro attempt
      cases h : outcomes attempt
      case ok p => simp [requestGo, h]
      all_goals
        simp only [requestGo, h]
        have := ih (attempt + 1)
        omega

/-- If the first success is at attempt `k`, the loop returns its
payload after `k + 1` attempts, having backed off after each earlier
failed attempt (helper). -/
theorem requestGo_success {α : Type} (outcomes : Nat → AttemptOutcome α)
    (retryDelay : Nat) :
    ∀ remaining attempt k payload, attempt ≤ k → k ≤ attempt + remaining →
      outcomes k = AttemptOutcome.ok payload →
      (∀ j, attempt ≤ j → j < k → (outcomes j).isFail = true) →
      requestGo outcomes retryDelay attempt remaining =
        (Except.ok payload, k + 1,
          (List.range' attempt (k - attempt)).map (fun j => retryDelay * (j + 1))) := by
  intro remaining
  induction remaining with
  | zero =>
      intro attempt k payload h1 h2 h3 h4
      have hk : k = attempt := by omega
      subst hk
      simp [requestGo, h3, Nat.sub_self]
  | succ r ih =>
      intro attempt k payload h1 h2 h3 h4
      by_cases hak : attempt = k
      · subst hak
        simp [requestGo, h3, Nat.sub_self]
      · have hlt : attempt < k := Nat.lt_of_le_of_ne h1 hak
        have hfail : (outcomes attempt).isFail = true := h4 attempt (Nat.le_refl _) hlt
        have hrange : k - attempt = (k - (attempt + 1)) + 1 := by omega
        rcases ho : outcomes attempt with p | ⟨a, b, c⟩ | m
        · rw [ho] at hfail
          simp [AttemptOutcome.isFail] at hfail
        all_goals
          simp only [requestGo, ho]
          rw [ih (attempt + 1) k payload (by omega) (by omega) h3
            (fun j hj1 hj2 => h4 j (by omega) hj2)]
          rw [hrange, List.range'_succ, List.map_cons]

/-- If every attempt in the budget fails, the loop raises the
classified error of the last attempt after exhausting the budget,
having backed off after every attempt but the last (helper). -/
theorem requestGo_allFail {α : Type} (outcomes : Nat → AttemptOutcome α)
    (retryDelay : Nat) :
    ∀ remaining attempt,
      (∀ j, attempt ≤ j → j ≤ attempt + remaining → (outcomes j).isFail = true) →
      requestGo outcomes retryDelay attempt remaining =
        (Except.error (classifyOutcome (outcomes (attempt + remaining))),
          attempt + remaining + 1,
          (List.range' attempt remaining).map (fun j => retryDelay * (j + 1))) := by
  intro remaining
  induction remaining with
  | zero =>
      intro attempt h
      have hfail : (outcomes attempt).isFail = true :=
        h attempt (Nat.le_refl _) (by omega)
      rcases ho : outcomes attempt with p | ⟨a, b, c⟩ | m
      · rw [ho] at hfail
        simp [AttemptOutcome.isFail] at hfail
      all_goals simp [requestGo, ho]
  | succ r ih =>
      intro attempt h
      have hfail : (outcomes attempt).isFail = true :=
        h attempt (Nat.le_refl _) (by omega)
      rcases ho : outcomes attempt with p | ⟨a, b, c⟩ | m
      · rw [ho] at hfail
        simp [AttemptOutcome.isFail] at hfail
      all_goals
        simp only [requestGo, ho]
        rw [ih (attempt + 1) (fun j hj1 hj2 => h j (by omega) (by omega))]
        rw [List.range'_succ, List.map_cons]
        refine Prod.ext ?_ (Prod.ext ?_ rfl)
        · show Except.error (classifyOutcome (outcomes (attempt + 1 + r))) =
            Except.error (classifyOutcome (outcomes (attempt + (r + 1))))
          rw [show attempt + 1 + r = attempt + (r + 1) from by omega]
        · show attempt + 1 + r + 1 = attempt + (r + 1) + 1
          omega

/-- C7 — Retry client semantics of `ApiClient.request`: at most
`retries + 1` attempts are performed; a first success at attempt `k`
(failures before, including non-success statuses, each followed by a
`retryDelay * (attempt + 1)` backoff) returns the parsed payload
immediately after `k + 1` attempts; and when every attempt in
`0 .. retries` fails, the classified error of the last attempt is
returned after `retries + 1` attempts. -/
theorem request_retry_contract {α : Type} (outcomes : Nat → AttemptOutcome α)
    (retries retryDelay : Nat) :
    (request outcomes retries retryDelay).2.1 ≤ retries + 1 ∧
    (∀ k payload, k ≤ retries → outcomes k = AttemptOutcome.ok payload →
      (∀ j, j < k → (outcomes j).isFail = true) →
      request outcomes retries retryDelay =
        (Except.ok payload, k + 1,
          (List.range k).map (fun j => retryDelay * (j + 1)))) ∧
    ((∀ j, j ≤ retries → (outcomes j).isFail = true) →
      request outcomes retries retryDelay =
        (Except.error (classifyOutcome (outcomes retries)), retries + 1,
          (List.range retries).map (fun j => retryDelay * (j + 1)))) := by
  refine ⟨?_, ?_, ?_⟩
  · have h := requestGo_attempts_le outcomes retryDelay retries 0
    simpa [request] using h
  · intro k payload hk h3 h4
    have h := requestGo_success outcomes retryDelay retries 0 k payload (Nat.zero_le k)
      (by omega) h3 (fun j _ hj => h4 j hj)
    rw [request, h, Nat.sub_zero, ← List.range_eq_range']
  · intro hall
    have h := requestGo_allFail outcomes retryDelay retries 0
      (fun j _ hj2 => hall j (by omega))
    rw [request, h, Nat.zero_add, ← List.range_eq_range']

/-- Witness for C7: two retries allowed, attempt 0 times out,
attempt 1 succeeds with payload `7` after one 100 ms backoff. -/
theorem request_retry_contract_witness :
    request wOutcomes 2 100 = (Except.ok 7, 2, [100]) := by
  have h := (request_retry_contract wOutcomes 2 100).2.1 1 7 (by decide) rfl
    (by decide)
  simpa using h
